import Mathlib

/-!
Verification of the Bitbucket storage backend: a shallow embedding of
`src/prefect/utilities/atlassian.py` (the `BitbucketClient` HTTP wrapper) and
`src/prefect/environments/storage/bitbucket.py` (the `Bitbucket` storage adapter),
together with theorems settling the specification claims about them.

Modelling conventions:
- Python `str`-or-`None` values become `Option String`; Python truthiness of such a
  value (`if self.host:`) becomes `truthy`, false for `none` and for `some ""`.
- Every `raise ValueError(...)` site becomes a distinct constructor of `BbError`
  carrying the exact message string the source formats.
- The HTTP transport is an oracle `http : String → HttpResponse` mapping the request
  URL to the response; the response body is modelled as the text the transport
  delivers (the source's `str(response.content, "utf-8")` decode is the boundary
  between transport bytes and this text).
- Mutation of the adapter (`add_flow`) is explicit state passing; a raise carries
  the state at the moment it happens, so that atomicity is a provable property
  rather than a modelling artifact.
-/

/-- Errors raised by the code; one constructor per raise site, each carrying the
message string the source builds there. -/
inductive BbError where
  | authenticationError (msg : String)
  | notFoundError (msg : String)
  | requestFailedError (msg : String)
  | notContainedError (msg : String)
  | missingLocationError (msg : String)
  | duplicateNameError (msg : String)
  deriving Repr, DecidableEq

/-- An HTTP response: numeric status code and body text (the UTF-8 decoded
content of the Python `response.content` bytes). -/
structure HttpResponse where
  status_code : Nat
  content : String
  deriving Repr, DecidableEq

/-- Python truthiness of a `str`-or-`None` value: `None` and the empty string are
falsy, every other string truthy. -/
def truthy : Option String → Bool
  | none => false
  | some s => s != ""

/-- The `BitbucketClient` of `atlassian.py`: we keep the `host` field, which is all
that `get_contents` consults (credentials and the session only affect the wire
request, which the oracle abstracts). -/
structure BitbucketClient where
  host : Option String
  deriving Repr, DecidableEq

namespace BitbucketClient

/-- The class constant `CLOUD_API` of `atlassian.py`. -/
def CLOUD_API : String := "https://api.bitbucket.org/2.0"

/-- The URL built by `get_contents` (atlassian.py lines 48-51): server form when
`self.host` is truthy, cloud form otherwise. -/
def contentsUrl (c : BitbucketClient) (repo path branch : String) : String :=
  if truthy c.host then
    c.host.getD "" ++ "/projects/" ++ repo ++ "/browse/" ++ path ++ "?raw&at=" ++ branch
  else
    CLOUD_API ++ "/repositories/" ++ repo ++ "/src/" ++ branch ++ "/" ++ path

/-- The message of the `ValueError` raised by `_request` on a 401 status. -/
def authFailedMsg : String :=
  "Bitbucket authentication failed, please check your credentials."

/-- `_request` (atlassian.py lines 62-78): issue the request through the oracle and
raise on a 401 status, otherwise hand the response back. -/
def request (http : String → HttpResponse) (url : String) :
    Except BbError HttpResponse :=
  let response := http url
  if response.status_code == 401 then
    .error (.authenticationError authFailedMsg)
  else
    .ok response

/-- The message of the `ValueError` raised by `get_contents` on a 404 status. -/
def noFileMsg (repo path branch : String) : String :=
  "No file found at `" ++ path ++ "` in repo `" ++ repo ++ "@" ++ branch ++ "`"

/-- The message of the `ValueError` raised by `get_contents` on any other
non-2xx status. -/
def requestFailedMsg (code : Nat) : String :=
  "Request to Bitbucket failed with " ++ toString code

/-- `get_contents` (atlassian.py lines 34-60): build the URL, issue the request
(which already raises on 401), then map 404 and other non-2xx statuses to
errors and return the response text on success. -/
def get_contents (c : BitbucketClient) (http : String → HttpResponse)
    (repo path branch : String) : Except BbError String := do
  let url := c.contentsUrl repo path branch
  let response ← request http url
  if response.status_code == 404 then
    .error (.notFoundError (noFileMsg repo path branch))
  else if !(200 ≤ response.status_code && response.status_code < 300) then
    .error (.requestFailedError (requestFailedMsg response.status_code))
  else
    .ok response.content

end BitbucketClient

/-- An in-memory flow object; only its `name` is consulted by the adapter. -/
structure FlowObj where
  name : String
  deriving Repr, DecidableEq

/-- The `Bitbucket` storage adapter of `bitbucket.py`: the name-to-path registry
`flows`, the in-memory flow-object registry `_flows` (insertion-ordered
association lists mirroring Python dicts), the repo, the optional default
path, and the API client. -/
structure Bitbucket where
  flows : List (String × Option String)
  _flows : List (String × FlowObj)
  repo : String
  path : Option String
  client : BitbucketClient
  deriving Repr, DecidableEq

namespace Bitbucket

/-- `Bitbucket.__init__` (bitbucket.py lines 16-24): empty registries, the given
repo and default path, and a client built with the given host. -/
def init (repo : String) (path : Option String) (host : Option String) : Bitbucket :=
  { flows := [], _flows := [], repo := repo, path := path, client := { host := host } }

/-- Modelled from the spec: the `in self` membership test of `add_flow` is provided
by the generic `Storage` base class, which is not among the sources; per the spec,
a name is already present when it is a key of the registry. -/
def contains (s : Bitbucket) (name : String) : Bool :=
  (s.flows.lookup name).isSome

/-- The message of the `ValueError` raised by `add_flow` on a name conflict. -/
def dupMsg (name : String) : String :=
  "Name conflict: Flow with the name \"" ++ name ++ "\" is already present in this storage."

/-- `add_flow` (bitbucket.py lines 57-79): raise on a duplicate name (the error
carries the state at the raise, which the code has not yet mutated), otherwise
record `flows[name] = self.path` and the flow object and return `self.path`. -/
def add_flow (s : Bitbucket) (flow : FlowObj) :
    Except (BbError × Bitbucket) (Option String × Bitbucket) :=
  if s.contains flow.name then
    .error (.duplicateNameError (dupMsg flow.name), s)
  else
    let s' := { s with flows := s.flows ++ [(flow.name, s.path)],
                       _flows := s._flows ++ [(flow.name, flow)] }
    .ok (s.path, s')

/-- Run `add_flow` over a list of flows, threading the state through both the
success and the raise outcome (a caller that catches the error keeps the state
the raise left behind). -/
def addAll (s : Bitbucket) (fs : List FlowObj) : Bitbucket :=
  fs.foldl (fun st f =>
    match st.add_flow f with
    | .ok (_, st') => st'
    | .error (_, st') => st') s

/-- The location-resolution prefix of `get_flow` (bitbucket.py lines 46-52):
a truthy explicit location must be among the registry VALUES, else a truthy
default path is used, else a missing-location error. -/
def resolveLocation (s : Bitbucket) (flow_location : Option String) :
    Except BbError String :=
  if truthy flow_location then
    if !((s.flows.map Prod.snd).contains flow_location) then
      .error (.notContainedError "Flow is not contained in this storage")
    else
      .ok (flow_location.getD "")
  else if truthy s.path then
    .ok (s.path.getD "")
  else
    .error (.missingLocationError "No flow location provided")

/-- `get_flow` (bitbucket.py lines 30-55): resolve the location, fetch the content
through the client at the default branch "master", and hand the text to the
extraction collaborator (an arbitrary function, since extraction is external),
returning its result. -/
def get_flow {α : Type} (s : Bitbucket) (extract : String → α)
    (http : String → HttpResponse) (flow_location : Option String) :
    Except BbError α := do
  let loc ← s.resolveLocation flow_location
  let content ← s.client.get_contents http s.repo loc "master"
  pure (extract content)

end Bitbucket

section Helpers

/-- A raise in `add_flow` leaves the state exactly as it was. -/
theorem Bitbucket.add_flow_error_state (s : Bitbucket) (f : FlowObj) (e : BbError)
    (s' : Bitbucket) (h : s.add_flow f = .error (e, s')) : s' = s := by
  unfold Bitbucket.add_flow at h
  split at h
  · cases h; rfl
  · cases h

/-- Successful `add_flow` on a fresh name appends to both registries. -/
theorem Bitbucket.add_flow_ok (s : Bitbucket) (f : FlowObj)
    (h : s.contains f.name = false) :
    s.add_flow f = .ok (s.path,
      { s with flows := s.flows ++ [(f.name, s.path)],
               _flows := s._flows ++ [(f.name, f)] }) := by
  simp [Bitbucket.add_flow, h]

/-- Any property preserved by one `add_flow` step holds after `addAll`. -/
theorem Bitbucket.addAll_invariant (P : Bitbucket → Prop)
    (hstep : ∀ st f, P st →
      P (match st.add_flow f with | .ok (_, st') => st' | .error (_, st') => st'))
    (s : Bitbucket) (fs : List FlowObj) (h : P s) : P (s.addAll fs) := by
  induction fs generalizing s with
  | nil => exact h
  | cons f fs ih => exact ih _ (hstep s f h)

/-- The invariant maintained by registration: the default path never changes, every
registry value is that path, and registry keys are distinct. -/
def regInv (p0 : Option String) (st : Bitbucket) : Prop :=
  st.path = p0 ∧ (∀ pr ∈ st.flows, pr.2 = p0) ∧ (st.flows.map Prod.fst).Nodup

theorem regInv_step (p0 : Option String) (st : Bitbucket) (f : FlowObj)
    (h : regInv p0 st) :
    regInv p0 (match st.add_flow f with | .ok (_, st') => st' | .error (_, st') => st') := by
  obtain ⟨hpath, hvals, hnodup⟩ := h
  cases hc : st.contains f.name with
  | true =>
    have hdup : st.add_flow f = .error (.duplicateNameError (Bitbucket.dupMsg f.name), st) := by
      simp [Bitbucket.add_flow, hc]
    rw [hdup]
    exact ⟨hpath, hvals, hnodup⟩
  | false =>
    have hlk : st.flows.lookup f.name = none := by
      simpa [Bitbucket.contains, Option.isSome_iff_ne_none] using hc
    have hmem : f.name ∉ st.flows.map Prod.fst := by
      intro hin
      obtain ⟨pr, hpr, hfst⟩ := List.mem_map.mp hin
      have := List.lookup_eq_none_iff.mp hlk pr hpr
      simp [hfst] at this
    rw [Bitbucket.add_flow_ok st f hc]
    refine ⟨hpath, ?_, ?_⟩
    · intro pr hpr
      rcases List.mem_append.mp hpr with h1 | h2
      · exact hvals pr h1
      · have : pr = (f.name, st.path) := by simpa using h2
        rw [this]
        exact hpath
    · rw [List.map_append]
      refine List.nodup_append.mpr ⟨hnodup, List.nodup_singleton _, ?_⟩
      intro a ha hb
      have : a = f.name := by simpa using hb
      exact hmem (this ▸ ha)

theorem regInv_addAll (repo : String) (path host : Option String) (fs : List FlowObj) :
    regInv path ((Bitbucket.init repo path host).addAll fs) :=
  Bitbucket.addAll_invariant (regInv path) (regInv_step path) _ fs
    ⟨rfl, by simp [Bitbucket.init], by simp [Bitbucket.init]⟩

end Helpers

@[simp] theorem exceptErrorBind {ε α β : Type} (e : ε) (f : α → Except ε β) :
    (Except.error e >>= f : Except ε β) = Except.error e := rfl

@[simp] theorem exceptOkBind {ε α β : Type} (a : α) (f : α → Except ε β) :
    (Except.ok a >>= f : Except ε β) = f a := rfl

/-- Claim C1: calling `get_flow` with a non-empty location that is not among the
values currently in the registry raises the not-contained error, and the result
does not depend on the HTTP transport (the call fails before any fetch). -/
theorem claim_C1_get_unregistered_location {α : Type} (s : Bitbucket)
    (extract : String → α) (http http' : String → HttpResponse) (loc : String)
    (hne : loc ≠ "")
    (hreg : ((s.flows.map Prod.snd).contains (some loc)) = false) :
    s.get_flow extract http (some loc)
      = .error (.notContainedError "Flow is not contained in this storage") ∧
    s.get_flow extract http (some loc) = s.get_flow extract http' (some loc) := by
  have key : ∀ hh : String → HttpResponse, s.get_flow extract hh (some loc)
      = .error (.notContainedError "Flow is not contained in this storage") := by
    intro hh
    have ht : (loc != "") = true := bne_iff_ne.mpr hne
    simp only [Bitbucket.get_flow, Bitbucket.resolveLocation, truthy, ht, if_true]
    rw [hreg]
    simp
  exact ⟨key http, (key http).trans (key http').symm⟩

theorem claim_C1_witness :
    (Bitbucket.mk [("f", some "flows/f.py")] [("f", ⟨"f"⟩)] "team/repo1"
        (some "flows/f.py") ⟨none⟩).get_flow id (fun _ => ⟨200, "body"⟩) (some "x")
      = .error (.notContainedError "Flow is not contained in this storage") ∧
    (Bitbucket.mk [("f", some "flows/f.py")] [("f", ⟨"f"⟩)] "team/repo1"
        (some "flows/f.py") ⟨none⟩).get_flow id (fun _ => ⟨200, "body"⟩) (some "x")
      = (Bitbucket.mk [("f", some "flows/f.py")] [("f", ⟨"f"⟩)] "team/repo1"
        (some "flows/f.py") ⟨none⟩).get_flow id (fun _ => ⟨404, "other"⟩) (some "x") :=
  claim_C1_get_unregistered_location _ id _ _ "x" (by decide) (by decide)

/-- Claim C2: registering a fresh name stores `registry[name] = default_path`,
remembers the in-memory flow object, and returns the stored default path; and on
any adapter built by a sequence of registrations every registry value equals the
default path fixed at construction. -/
theorem claim_C2_register_fresh (s : Bitbucket) (f : FlowObj)
    (h : s.contains f.name = false) :
    s.add_flow f = .ok (s.path,
      { s with flows := s.flows ++ [(f.name, s.path)],
               _flows := s._flows ++ [(f.name, f)] }) ∧
    ∀ (repo : String) (path host : Option String) (fs : List FlowObj),
      ∀ pr ∈ ((Bitbucket.init repo path host).addAll fs).flows, pr.2 = path :=
  ⟨Bitbucket.add_flow_ok s f h,
   fun repo path host fs => (regInv_addAll repo path host fs).2.1⟩

theorem claim_C2_witness :
    (Bitbucket.init "team/repo1" (some "flows/f.py") none).add_flow ⟨"f"⟩
      = .ok (some "flows/f.py",
          Bitbucket.mk [("f", some "flows/f.py")] [("f", ⟨"f"⟩)] "team/repo1"
            (some "flows/f.py") ⟨none⟩) ∧
    ∀ (repo : String) (path host : Option String) (fs : List FlowObj),
      ∀ pr ∈ ((Bitbucket.init repo path host).addAll fs).flows, pr.2 = path :=
  claim_C2_register_fresh (Bitbucket.init "team/repo1" (some "flows/f.py") none)
    ⟨"f"⟩ (by decide)

/-- Claim C3 counterexample: a client constructed with the empty-string host is
in cloud mode, not server mode — the code tests truthiness of `self.host`, not
presence — so the claim's server-mode equation fails for the host value "". -/
theorem claim_C3_counterexample :
    (BitbucketClient.mk (some "")).contentsUrl "r" "p" "b"
      = BitbucketClient.CLOUD_API ++ "/repositories/" ++ "r" ++ "/src/" ++ "b" ++ "/" ++ "p" ∧
    (BitbucketClient.mk (some "")).contentsUrl "r" "p" "b"
      ≠ "" ++ "/projects/" ++ "r" ++ "/browse/" ++ "p" ++ "?raw&at=" ++ "b" :=
  ⟨rfl, by decide⟩

/-- Claim C3 (amended): for all strings repo, path, branch, a client constructed
with a NON-EMPTY host builds the server-mode URL, and a client constructed
without a host builds the cloud-mode URL, with CLOUD_API as stated. -/
theorem claim_C3_url_construction (h repo path branch : String) (hne : h ≠ "") :
    (BitbucketClient.mk (some h)).contentsUrl repo path branch
      = h ++ "/projects/" ++ repo ++ "/browse/" ++ path ++ "?raw&at=" ++ branch ∧
    (BitbucketClient.mk none).contentsUrl repo path branch
      = BitbucketClient.CLOUD_API ++ "/repositories/" ++ repo ++ "/src/" ++ branch ++ "/" ++ path ∧
    BitbucketClient.CLOUD_API = "https://api.bitbucket.org/2.0" := by
  have ht : (h != "") = true := bne_iff_ne.mpr hne
  exact ⟨by simp [BitbucketClient.contentsUrl, truthy, ht],
         by simp [BitbucketClient.contentsUrl, truthy], rfl⟩

theorem claim_C3_witness :
    (BitbucketClient.mk (some "https://bb.internal")).contentsUrl "PROJ" "a.py" "main"
      = "https://bb.internal" ++ "/projects/" ++ "PROJ" ++ "/browse/" ++ "a.py"
          ++ "?raw&at=" ++ "main" ∧
    (BitbucketClient.mk none).contentsUrl "PROJ" "a.py" "main"
      = BitbucketClient.CLOUD_API ++ "/repositories/" ++ "PROJ" ++ "/src/" ++ "main"
          ++ "/" ++ "a.py" ∧
    BitbucketClient.CLOUD_API = "https://api.bitbucket.org/2.0" :=
  claim_C3_url_construction "https://bb.internal" "PROJ" "a.py" "main" (by decide)

/-- Claim C4 counterexample: on a 401 response the code raises the authentication
error, but its message is "Bitbucket authentication failed, please check your
credentials.", not the message quoted by the claim. -/
theorem claim_C4_counterexample :
    (BitbucketClient.mk none).get_contents (fun _ => ⟨401, "body"⟩) "repo" "path" "branch"
      = .error (.authenticationError
          "Bitbucket authentication failed, please check your credentials.") ∧
    "Bitbucket authentication failed, please check your credentials."
      ≠ "authentication failed, check credentials" :=
  ⟨rfl, by decide⟩

/-- Claim C4 (amended): for every request, a 401 response raises the
authentication error with message "Bitbucket authentication failed, please
check your credentials.", and this check takes precedence over the 404 and
generic non-2xx checks — whatever the requested repo, path, or branch, the
result is the authentication error and nothing else. -/
theorem claim_C4_auth_error_precedence (c : BitbucketClient)
    (http : String → HttpResponse) (repo path branch : String)
    (h : (http (c.contentsUrl repo path branch)).status_code = 401) :
    c.get_contents http repo path branch
      = .error (.authenticationError
          "Bitbucket authentication failed, please check your credentials.") := by
  simp [BitbucketClient.get_contents, BitbucketClient.request, h,
    BitbucketClient.authFailedMsg]

theorem claim_C4_witness :
    (BitbucketClient.mk none).get_contents (fun _ => ⟨401, "ignored"⟩) "r" "a.py" "main"
      = .error (.authenticationError
          "Bitbucket authentication failed, please check your credentials.") :=
  claim_C4_auth_error_precedence (BitbucketClient.mk none) (fun _ => ⟨401, "ignored"⟩)
    "r" "a.py" "main" rfl

/-- Claim C5 counterexample: on a 404 the code raises the not-found error whose
message begins with a capitalized "No file found at ...", so the message is not
of the claimed form "no file found at ...". -/
theorem claim_C5_counterexample :
    (BitbucketClient.mk none).get_contents (fun _ => ⟨404, ""⟩) "r" "a.py" "main"
      = .error (.notFoundError "No file found at `a.py` in repo `r@main`") ∧
    "No file found at `a.py` in repo `r@main`"
      ≠ "no file found at `a.py` in repo `r@main`" :=
  ⟨rfl, by decide⟩

/-- Claim C5 (amended): for all repo, path, branch, a 404 response raises the
not-found error whose message mentions the path, the repo, and the branch, in
the form "No file found at `path` in repo `repo@branch`"; and any other status
outside the interval from 200 to 300 (other than the 401 handled earlier)
raises the generic request-failed error carrying the numeric status code in its
message. -/
theorem claim_C5_not_found_and_generic (c : BitbucketClient)
    (http : String → HttpResponse) (repo path branch : String) :
    ((http (c.contentsUrl repo path branch)).status_code = 404 →
      c.get_contents http repo path branch
        = .error (.notFoundError
            ("No file found at `" ++ path ++ "` in repo `" ++ repo ++ "@" ++ branch ++ "`"))) ∧
    (∀ st : Nat, (http (c.contentsUrl repo path branch)).status_code = st →
      st ≠ 401 → st ≠ 404 → ¬(200 ≤ st ∧ st < 300) →
      c.get_contents http repo path branch
        = .error (.requestFailedError ("Request to Bitbucket failed with " ++ toString st))) := by
  constructor
  · intro h
    simp [BitbucketClient.get_contents, BitbucketClient.request, h,
      BitbucketClient.noFileMsg]
  · intro st hst h401 h404 hout
    simp [BitbucketClient.get_contents, BitbucketClient.request, hst, h401, h404,
      BitbucketClient.requestFailedMsg]
    omega

theorem claim_C5_witness :
    (BitbucketClient.mk none).get_contents (fun _ => ⟨404, ""⟩) "r" "a.py" "main"
      = .error (.notFoundError
          ("No file found at `" ++ "a.py" ++ "` in repo `" ++ "r" ++ "@" ++ "main" ++ "`")) ∧
    (BitbucketClient.mk none).get_contents (fun _ => ⟨503, ""⟩) "r" "a.py" "main"
      = .error (.requestFailedError ("Request to Bitbucket failed with " ++ toString 503)) :=
  ⟨(claim_C5_not_found_and_generic (BitbucketClient.mk none) (fun _ => ⟨404, ""⟩)
      "r" "a.py" "main").1 rfl,
   (claim_C5_not_found_and_generic (BitbucketClient.mk none) (fun _ => ⟨503, ""⟩)
      "r" "a.py" "main").2 503 rfl (by decide) (by decide) (by decide)⟩

/-- Claim C6: registering the same name twice on one adapter raises the
duplicate-name error on the second call and leaves the state as the first call
left it; and on any adapter built by a sequence of registrations the registry
keys are pairwise distinct (a name is registered at most once per instance). -/
theorem claim_C6_duplicate_registration :
    (∀ (s : Bitbucket) (f g : FlowObj), f.name = g.name →
      ∀ (r : Option String) (s' : Bitbucket), s.add_flow f = .ok (r, s') →
        s'.add_flow g = .error (.duplicateNameError (Bitbucket.dupMsg g.name), s')) ∧
    (∀ (repo : String) (path host : Option String) (fs : List FlowObj),
      (((Bitbucket.init repo path host).addAll fs).flows.map Prod.fst).Nodup) := by
  constructor
  · intro s f g hname r s' hok
    unfold Bitbucket.add_flow at hok
    cases hc : s.contains f.name with
    | true => rw [hc] at hok; simp at hok
    | false =>
      rw [hc] at hok
      simp only [Bool.false_eq_true, if_false, Except.ok.injEq, Prod.mk.injEq] at hok
      obtain ⟨hr, hs'⟩ := hok
      have hcont : s'.contains g.name = true := by
        rw [← hs']
        simp only [Bitbucket.contains, List.lookup_append]
        rw [hname]
        cases h : s.flows.lookup g.name <;> simp [Option.or, List.lookup]
      simp [Bitbucket.add_flow, hcont]
  · intro repo path host fs
    exact (regInv_addAll repo path host fs).2.2

theorem claim_C6_witness :
    (Bitbucket.mk [("a", some "p")] [("a", ⟨"a"⟩)] "r" (some "p") ⟨none⟩).add_flow ⟨"a"⟩
      = .error (.duplicateNameError (Bitbucket.dupMsg "a"),
          Bitbucket.mk [("a", some "p")] [("a", ⟨"a"⟩)] "r" (some "p") ⟨none⟩) :=
  claim_C6_duplicate_registration.1 (Bitbucket.init "r" (some "p") none) ⟨"a"⟩ ⟨"a"⟩
    rfl (some "p")
    (Bitbucket.mk [("a", some "p")] [("a", ⟨"a"⟩)] "r" (some "p") ⟨none⟩)
    rfl

/-- Claim C7 counterexample: an adapter constructed with the empty string as its
default path does not fetch that path on `get_flow` with no location — the code
tests truthiness of `self.path`, so it raises the missing-location error
instead of returning the extraction result on the fetched content. -/
theorem claim_C7_counterexample :
    (Bitbucket.init "r" (some "") none).get_flow id (fun _ => ⟨200, "text"⟩) none
      = .error (.missingLocationError "No flow location provided") ∧
    (Bitbucket.init "r" (some "") none).get_flow id (fun _ => ⟨200, "text"⟩) none
      ≠ .ok "text" :=
  ⟨rfl, fun h => Except.noConfusion h⟩

/-- Claim C7 (amended): for every adapter constructed with a NON-EMPTY default
path, `get_flow` with no location equals the client's fetch at exactly
(repo = the adapter's repo, path = the default path, branch = "master"), with
the extraction collaborator's result returned verbatim on the fetched content. -/
theorem claim_C7_default_path_fetch {α : Type} (s : Bitbucket) (extract : String → α)
    (http : String → HttpResponse) (p : String) (hp : s.path = some p) (hne : p ≠ "") :
    s.get_flow extract http none
      = (s.client.get_contents http s.repo p "master").map extract := by
  have ht : (p != "") = true := bne_iff_ne.mpr hne
  simp only [Bitbucket.get_flow, Bitbucket.resolveLocation, truthy, hp, ht,
    Option.getD_some, if_true, Bool.false_eq_true, if_false, exceptOkBind]
  cases h : s.client.get_contents http s.repo p "master" <;> simp [Except.map, h]

theorem claim_C7_witness :
    (Bitbucket.init "team/repo1" (some "flows/f.py") none).get_flow id
        (fun _ => ⟨200, "flow-src"⟩) none
      = ((Bitbucket.init "team/repo1" (some "flows/f.py") none).client.get_contents
          (fun _ => ⟨200, "flow-src"⟩) "team/repo1" "flows/f.py" "master").map id :=
  claim_C7_default_path_fetch (Bitbucket.init "team/repo1" (some "flows/f.py") none)
    id (fun _ => ⟨200, "flow-src"⟩) "flows/f.py" rfl (by decide)

/-- Claim C8: on an adapter constructed without a default path, `get_flow` with
no location raises the missing-location error, and the result does not depend
on the HTTP transport (no fetch is attempted). -/
theorem claim_C8_missing_location {α : Type} (s : Bitbucket) (extract : String → α)
    (http http' : String → HttpResponse) (h : s.path = none) :
    s.get_flow extract http none
      = .error (.missingLocationError "No flow location provided") ∧
    s.get_flow extract http none = s.get_flow extract http' none := by
  have key : ∀ hh : String → HttpResponse, s.get_flow extract hh none
      = .error (.missingLocationError "No flow location provided") := by
    intro hh
    simp [Bitbucket.get_flow, Bitbucket.resolveLocation, truthy, h]
  exact ⟨key http, (key http).trans (key http').symm⟩

theorem claim_C8_witness :
    (Bitbucket.init "team/repo1" none none).get_flow id (fun _ => ⟨200, "body"⟩) none
      = .error (.missingLocationError "No flow location provided") ∧
    (Bitbucket.init "team/repo1" none none).get_flow id (fun _ => ⟨200, "body"⟩) none
      = (Bitbucket.init "team/repo1" none none).get_flow id (fun _ => ⟨500, "err"⟩) none :=
  claim_C8_missing_location (Bitbucket.init "team/repo1" none none) id
    (fun _ => ⟨200, "body"⟩) (fun _ => ⟨500, "err"⟩) rfl

/-- Claim C9: on any response whose status code lies in the interval from 200 to
300, `get_contents` returns the response body text unchanged (in the source the
body is the `response.content` bytes decoded as UTF-8; the model's `content`
field is that decoded text). -/
theorem claim_C9_success_returns_body (c : BitbucketClient)
    (http : String → HttpResponse) (repo path branch : String)
    (h200 : 200 ≤ (http (c.contentsUrl repo path branch)).status_code)
    (h300 : (http (c.contentsUrl repo path branch)).status_code < 300) :
    c.get_contents http repo path branch
      = .ok (http (c.contentsUrl repo path branch)).content := by
  simp only [BitbucketClient.get_contents, BitbucketClient.request]
  have h401 : ((http (c.contentsUrl repo path branch)).status_code == 401) = false := by
    simp; omega
  rw [h401]
  simp only [Bool.false_eq_true, if_false, exceptOkBind]
  have h404 : ((http (c.contentsUrl repo path branch)).status_code == 404) = false := by
    simp; omega
  simp [h404, h200, h300]

theorem claim_C9_witness :
    (BitbucketClient.mk none).get_contents (fun _ => ⟨200, "def flow(): pass"⟩)
        "r" "a.py" "main"
      = .ok ((fun (_ : String) => (⟨200, "def flow(): pass"⟩ : HttpResponse))
          ((BitbucketClient.mk none).contentsUrl "r" "a.py" "main")).content :=
  claim_C9_success_returns_body (BitbucketClient.mk none)
    (fun _ => ⟨200, "def flow(): pass"⟩) "r" "a.py" "main" (by decide) (by decide)

/-- Claim C10: registration is atomic on error — when `add_flow` raises the
duplicate-name error, both the name-to-path registry and the in-memory
flow-object registry are exactly as they were before the call. -/
theorem claim_C10_register_atomic (s : Bitbucket) (f : FlowObj)
    (h : s.contains f.name = true) :
    s.add_flow f = .error (.duplicateNameError (Bitbucket.dupMsg f.name), s) ∧
    ∀ (e : BbError) (s' : Bitbucket), s.add_flow f = .error (e, s') →
      s'.flows = s.flows ∧ s'._flows = s._flows := by
  refine ⟨by simp [Bitbucket.add_flow, h], ?_⟩
  intro e s' h'
  rw [Bitbucket.add_flow_error_state s f e s' h']
  exact ⟨rfl, rfl⟩

theorem claim_C10_witness :
    (Bitbucket.mk [("a", some "p")] [("a", ⟨"a"⟩)] "r" (some "p") ⟨none⟩).add_flow ⟨"a"⟩
      = .error (.duplicateNameError (Bitbucket.dupMsg "a"),
          Bitbucket.mk [("a", some "p")] [("a", ⟨"a"⟩)] "r" (some "p") ⟨none⟩) ∧
    ∀ (e : BbError) (s' : Bitbucket),
      (Bitbucket.mk [("a", some "p")] [("a", ⟨"a"⟩)] "r" (some "p") ⟨none⟩).add_flow ⟨"a"⟩
        = .error (e, s') →
      s'.flows = [("a", some "p")] ∧ s'._flows = [("a", ⟨"a"⟩)] :=
  claim_C10_register_atomic
    (Bitbucket.mk [("a", some "p")] [("a", ⟨"a"⟩)] "r" (some "p") ⟨none⟩)
    ⟨"a"⟩ (by decide)
